import Mathlib

/-!
Shallow embedding of `surfman/src/platform/windows/wgl/surface.rs`, the
WGL/Direct3D-interop surface backend.  External calls (Direct3D 11, OpenGL,
winuser/wingdi, the scoped make-current guard) are modelled through an
environment record `Env` that fixes the outcome of each native call, and every
operation additionally returns the list of external calls it performed, so
that claims about work "not attempted" are statable.  A Rust panic (either a
`panic!`/`expect`/`assert` inside the function, modelled here, or the `Drop`
guard) is a `fatal` outcome, distinct from a returned `Err`.
-/

namespace WGLSurface

/-- Win32 `RECT`: screen coordinates as returned by the rectangle queries. -/
structure Rect where
  left : Int
  top : Int
  right : Int
  bottom : Int
  deriving DecidableEq, Repr

/-- `euclid::default::Size2D<i32>`. -/
structure Size2D where
  width : Int
  height : Int
  deriving DecidableEq, Repr

/-- `ContextID` from the crate root: an opaque id attached to each context. -/
structure ContextID where
  id : Nat
  deriving DecidableEq, Repr

/-- `SurfaceID(usize)` from the crate root; holds the pointer value used as id. -/
structure SurfaceID where
  id : Int
  deriving DecidableEq, Repr

/-- Win32 `HANDLE` / raw pointers, modelled as integers (0 is the null pointer). -/
abbrev Handle := Int

/-- `INVALID_HANDLE_VALUE` is the all-ones pointer, i.e. -1 as a signed value. -/
def INVALID_HANDLE_VALUE : Handle := -1

/-- The `Renderbuffers` helper is out of scope (crate module `renderbuffers`);
its value is opaque to this backend, so it is a token. -/
structure Renderbuffers where
  token : Nat
  deriving DecidableEq, Repr

/-- `Win32Objects`: the two variants of a surface's platform payload
(source lines 54-66). -/
inductive Win32Objects where
  | Texture (d3d11_texture : Handle) (dxgi_share_handle : Handle)
      (gl_dx_interop_object : Handle) (gl_texture : Nat) (gl_framebuffer : Nat)
      (renderbuffers : Renderbuffers)
  | Widget (window_handle : Handle)
  deriving DecidableEq, Repr

/-- `Surface` (source lines 47-52). -/
structure Surface where
  size : Size2D
  context_id : ContextID
  win32_objects : Win32Objects
  destroyed : Bool
  deriving DecidableEq, Repr

/-- `SurfaceTexture` (source lines 68-75); the `ComPtr` and `HANDLE` fields are
raw handles here, and `PhantomData` carries no data. -/
structure SurfaceTexture where
  surface : Surface
  local_d3d11_texture : Handle
  local_gl_dx_interop_object : Handle
  gl_texture : Nat
  deriving DecidableEq, Repr

/-- `Context` (module `context`, out of scope): only its `id` field is read by
this backend; the `gl` function table is behind the `Env`. -/
structure Context where
  id : ContextID
  deriving DecidableEq, Repr

/-- `Device` (module `device`, out of scope): the two device handles read by
this backend. -/
structure Device where
  d3d11_device : Handle
  gl_dx_interop_device : Handle
  deriving DecidableEq, Repr

/-- `NativeWidget` (source lines 93-95). -/
structure NativeWidget where
  window_handle : Handle
  deriving DecidableEq, Repr

/-- `SurfaceType<NativeWidget>` from the crate root: the two creation requests. -/
inductive SurfaceType where
  | Generic (size : Size2D)
  | Widget (native_widget : NativeWidget)
  deriving DecidableEq, Repr

/-- Modelled from the spec: the access hint accepted (and, per the spec's §4.1,
never inspected) by `create_surface`; the crate-root enum is not under src. -/
inductive SurfaceAccess where
  | GPUOnly
  | GPUCPU
  | GPUCPUWriteCombined
  deriving DecidableEq, Repr

/-- `WindowingApiError`: only the `Failed` variant is used by this backend. -/
inductive WindowingApiError where
  | Failed
  deriving DecidableEq, Repr

/-- `Error` from the crate root, restricted to the variants this backend can
produce; `MakeCurrentFailed` stands for whatever error the out-of-scope
`temporarily_make_context_current` guard propagates through `?`. -/
inductive Error where
  | RequiredExtensionUnavailable
  | SurfaceCreationFailed (err : WindowingApiError)
  | SurfaceImportFailed (err : WindowingApiError)
  | IncompatibleSurface
  | InvalidNativeWidget
  | WidgetAttached
  | NoWidgetAttached
  | Unimplemented
  | MakeCurrentFailed
  deriving DecidableEq, Repr

/-- `WGL_ACCESS_READ_ONLY_NV` (source line 44). -/
def WGL_ACCESS_READ_ONLY_NV : Nat := 0x0000

/-- `WGL_ACCESS_READ_WRITE_NV` (source line 45). -/
def WGL_ACCESS_READ_WRITE_NV : Nat := 0x0001

/-- `gl::TEXTURE_MAG_FILTER`. -/
def TEXTURE_MAG_FILTER : Nat := 0x2800

/-- `gl::TEXTURE_MIN_FILTER`. -/
def TEXTURE_MIN_FILTER : Nat := 0x2801

/-- `gl::TEXTURE_WRAP_S`. -/
def TEXTURE_WRAP_S : Nat := 0x2802

/-- `gl::TEXTURE_WRAP_T`. -/
def TEXTURE_WRAP_T : Nat := 0x2803

/-- One external (GPU / interop / window-system) call performed by the backend.
Every operation returns the list of these it made, in order. -/
inductive ExternCall where
  | makeContextCurrent (context_id : ContextID)
  | createTexture2D (width height : Int)
  | queryInterface
  | getSharedHandle
  | dxSetResourceShareHandle (share_handle : Handle)
  | genTextures
  | dxRegisterObject (access : Nat)
  | genFramebuffers
  | bindFramebuffer (framebuffer : Nat)
  | framebufferTexture2D (texture : Nat)
  | renderbuffersNew
  | renderbuffersBind
  | renderbuffersDestroy
  | destroyFramebuffer (framebuffer : Nat)
  | deleteTextures (texture : Nat)
  | dxUnregisterObject (interop_object : Handle)
  | dxLockObjects (interop_object : Handle)
  | dxUnlockObjects (interop_object : Handle)
  | getWindowRect (window_handle : Handle)
  | openSharedResource (share_handle : Handle)
  | getDC (window_handle : Handle)
  | swapBuffers
  | releaseDC (window_handle : Handle)
  | bindTexture (texture : Nat)
  | texParameteri (pname : Nat)
  deriving DecidableEq, Repr

/-- Outcomes of every native call the backend can make, fixed up front.
`dx_interop_available` models whether `WGL_EXTENSION_FUNCTIONS
.dx_interop_functions` is `Some`; `make_current_result = none` means the scoped
make-current guard succeeded.  `get_client_rect` models `winuser::GetClientRect`,
which this backend never calls; it is present only so the spec's wording about
the client rectangle can be stated and compared with `get_window_rect`
(`winuser::GetWindowRect`, which the backend does call). -/
structure Env where
  dx_interop_available : Bool
  make_current_result : Option Error
  create_texture_2d_succeeded : Bool
  create_texture_2d_handle : Handle
  query_interface_succeeded : Bool
  query_interface_handle : Handle
  get_shared_handle_succeeded : Bool
  shared_handle : Handle
  set_resource_share_handle_ok : Bool
  gen_textures_name : Nat
  register_object_handle : Handle
  gen_framebuffers_name : Nat
  renderbuffers_token : Nat
  get_window_rect : Option Rect
  get_client_rect : Option Rect
  open_shared_resource_succeeded : Bool
  open_shared_resource_handle : Handle
  lock_objects_ok : Bool
  unlock_objects_ok : Bool
  unregister_object_ok : Bool
  swap_buffers_ok : Bool
  deriving DecidableEq, Repr

/-- Result of a function that does not consume a surface: `ok`, a returned
`Err`, or a Rust panic (`fatal`). -/
inductive FnResult (α : Type) where
  | ok : α → FnResult α
  | err : Error → FnResult α
  | fatal : FnResult α
  deriving DecidableEq, Repr

/-- Result of `destroy_surface`, which consumes its surface: each non-panicking
outcome records the surface value as it stands when the function's scope drops
it, so claims about the `destroyed` flag can read it off. -/
inductive DestroySurfaceResult where
  | ok (final_surface : Surface)
  | err (e : Error) (dropped_surface : Surface)
  | fatal (surface_at_panic : Surface)
  deriving DecidableEq, Repr

/-- Result of `create_surface_texture`, which consumes its surface: on error
the consumed surface's final value (as dropped) is recorded; on success
ownership moved into the returned `SurfaceTexture`. -/
inductive CreateSurfaceTextureResult where
  | ok (surface_texture : SurfaceTexture)
  | err (e : Error) (dropped_surface : Surface)
  | fatal (surface_at_panic : Surface)
  deriving DecidableEq, Repr

/-- Result of `destroy_surface_texture`, which consumes its surface texture. -/
inductive DestroySurfaceTextureResult where
  | ok (surface : Surface)
  | err (e : Error) (dropped : SurfaceTexture)
  | fatal (at_panic : SurfaceTexture)
  deriving DecidableEq, Repr

/-- `Device::create_generic_surface` (source lines 111-214).  The internal
`context_descriptor`/`context_descriptor_attributes` reads are pure lookups on
out-of-scope state and feed only the opaque renderbuffers token. -/
def create_generic_surface (env : Env) (device : Device) (context : Context)
    (size : Size2D) : FnResult Surface × List ExternCall :=
  if env.dx_interop_available then
    match env.make_current_result with
    | some e => (.err e, [.makeContextCurrent context.id])
    | none =>
      let t0 : List ExternCall :=
        [.makeContextCurrent context.id, .createTexture2D size.width size.height]
      if env.create_texture_2d_succeeded then
        if env.create_texture_2d_handle = 0 then
          (.fatal, t0)
        else
          let t1 := t0 ++ [.queryInterface]
          if ¬env.query_interface_succeeded ∨ env.query_interface_handle = 0 then
            (.fatal, t1)
          else
            let t2 := t1 ++ [.getSharedHandle]
            if ¬env.get_shared_handle_succeeded ∨
                env.shared_handle = INVALID_HANDLE_VALUE then
              (.fatal, t2)
            else
              let t3 := t2 ++ [.dxSetResourceShareHandle env.shared_handle]
              if env.set_resource_share_handle_ok then
                let gl_texture := env.gen_textures_name
                let t4 := t3 ++ [.genTextures, .dxRegisterObject WGL_ACCESS_READ_WRITE_NV]
                if env.register_object_handle = INVALID_HANDLE_VALUE then
                  (.fatal, t4)
                else
                  let gl_framebuffer := env.gen_framebuffers_name
                  let t5 := t4 ++
                    [.genFramebuffers, .bindFramebuffer gl_framebuffer,
                     .framebufferTexture2D gl_texture, .renderbuffersNew,
                     .renderbuffersBind]
                  (.ok { size := size
                         context_id := context.id
                         win32_objects := .Texture env.create_texture_2d_handle
                           env.shared_handle env.register_object_handle gl_texture
                           gl_framebuffer ⟨env.renderbuffers_token⟩
                         destroyed := false }, t5)
              else
                (.fatal, t3)
      else
        (.err (.SurfaceCreationFailed .Failed), t0)
  else
    (.err .RequiredExtensionUnavailable, [])

/-- `Device::create_widget_surface` (source lines 216-235): queries
`winuser::GetWindowRect` on the widget's window handle and takes the
rectangle's width and height as the size. -/
def create_widget_surface (env : Env) (context : Context)
    (native_widget : NativeWidget) : FnResult Surface × List ExternCall :=
  match env.get_window_rect with
  | none =>
    (.err .InvalidNativeWidget, [.getWindowRect native_widget.window_handle])
  | some widget_rect =>
    (.ok { size := ⟨widget_rect.right - widget_rect.left,
                    widget_rect.bottom - widget_rect.top⟩
           context_id := context.id
           win32_objects := .Widget native_widget.window_handle
           destroyed := false },
     [.getWindowRect native_widget.window_handle])

/-- `Device::create_surface` (source lines 98-109): dispatches on the surface
type; the `SurfaceAccess` argument is the anonymous `_` parameter of the
source and is never read. -/
def create_surface (env : Env) (device : Device) (context : Context)
    (_access : SurfaceAccess) (surface_type : SurfaceType) :
    FnResult Surface × List ExternCall :=
  match surface_type with
  | .Generic size => create_generic_surface env device context size
  | .Widget native_widget => create_widget_surface env context native_widget

/-- `Device::destroy_surface` (source lines 237-282).  Note the
`.expect("How did you make a surface without DX interop?")` on the interop
function table runs before the context-id check, so a missing capability is a
panic (`fatal`) even for widget-backed surfaces and even on the
incompatible-context path. -/
def destroy_surface (env : Env) (device : Device) (context : Context)
    (surface : Surface) : DestroySurfaceResult × List ExternCall :=
  if env.dx_interop_available then
    if context.id ≠ surface.context_id then
      (.err .IncompatibleSurface { surface with destroyed := true }, [])
    else
      match env.make_current_result with
      | some e => (.err e surface, [.makeContextCurrent context.id])
      | none =>
        match surface.win32_objects with
        | .Texture d3d11_texture dxgi_share_handle gl_dx_interop_object
            gl_texture gl_framebuffer renderbuffers =>
          let t := [.makeContextCurrent context.id, .renderbuffersDestroy,
                    .destroyFramebuffer gl_framebuffer, .deleteTextures gl_texture,
                    .dxUnregisterObject gl_dx_interop_object]
          if env.unregister_object_ok then
            (.ok { surface with
                     win32_objects := .Texture d3d11_texture dxgi_share_handle
                       INVALID_HANDLE_VALUE 0 0 renderbuffers
                     destroyed := true }, t)
          else
            (.fatal { surface with
                        win32_objects := .Texture d3d11_texture dxgi_share_handle
                          gl_dx_interop_object 0 0 renderbuffers }, t)
        | .Widget _ =>
          (.ok { surface with destroyed := true }, [.makeContextCurrent context.id])
  else
    (.fatal surface, [])

/-- `Device::create_surface_texture` (source lines 284-359).  The widget check
precedes everything else (so it cannot panic); the share-handle open failure
marks the consumed surface destroyed before returning `SurfaceImportFailed`. -/
def create_surface_texture (env : Env) (device : Device) (context : Context)
    (surface : Surface) : CreateSurfaceTextureResult × List ExternCall :=
  match surface.win32_objects with
  | .Widget _ =>
    (.err .WidgetAttached { surface with destroyed := true }, [])
  | .Texture _ dxgi_share_handle _ _ _ _ =>
    if env.dx_interop_available then
      match env.make_current_result with
      | some e => (.err e surface, [.makeContextCurrent context.id])
      | none =>
        let t0 := [.makeContextCurrent context.id,
                   .openSharedResource dxgi_share_handle]
        if ¬env.open_shared_resource_succeeded ∨
            env.open_shared_resource_handle = 0 then
          (.err (.SurfaceImportFailed .Failed) { surface with destroyed := true }, t0)
        else
          let t1 := t0 ++ [.dxSetResourceShareHandle dxgi_share_handle]
          if env.set_resource_share_handle_ok then
            let gl_texture := env.gen_textures_name
            let t2 := t1 ++ [.genTextures,
                             .dxRegisterObject WGL_ACCESS_READ_ONLY_NV,
                             .dxLockObjects env.register_object_handle]
            if env.lock_objects_ok then
              let t3 := t2 ++ [.bindTexture gl_texture,
                               .texParameteri TEXTURE_MAG_FILTER,
                               .texParameteri TEXTURE_MIN_FILTER,
                               .texParameteri TEXTURE_WRAP_S,
                               .texParameteri TEXTURE_WRAP_T]
              (.ok { surface := surface
                     local_d3d11_texture := env.open_shared_resource_handle
                     local_gl_dx_interop_object := env.register_object_handle
                     gl_texture := gl_texture }, t3)
            else
              (.fatal surface, t2)
          else
            (.fatal surface, t1)
    else
      (.fatal surface, [])

/-- `Device::destroy_surface_texture` (source lines 361-393): unlock,
unregister, delete the local GL texture, then return the wrapped surface. -/
def destroy_surface_texture (env : Env) (device : Device) (context : Context)
    (surface_texture : SurfaceTexture) :
    DestroySurfaceTextureResult × List ExternCall :=
  if env.dx_interop_available then
    match env.make_current_result with
    | some e => (.err e surface_texture, [.makeContextCurrent context.id])
    | none =>
      let io := surface_texture.local_gl_dx_interop_object
      let t0 := [.makeContextCurrent context.id, .dxUnlockObjects io]
      if env.unlock_objects_ok then
        let t1 := t0 ++ [.dxUnregisterObject io]
        if env.unregister_object_ok then
          let t2 := t1 ++ [.deleteTextures surface_texture.gl_texture]
          (.ok surface_texture.surface, t2)
        else
          (.fatal surface_texture, t1)
      else
        (.fatal surface_texture, t0)
  else
    (.fatal surface_texture, [])

/-- `Device::lock_surface` (source lines 395-412): early return for widget
surfaces, before the interop-table `expect`. -/
def lock_surface (env : Env) (device : Device) (surface : Surface) :
    FnResult Unit × List ExternCall :=
  match surface.win32_objects with
  | .Widget _ => (.ok (), [])
  | .Texture _ _ gl_dx_interop_object _ _ _ =>
    if env.dx_interop_available then
      if env.lock_objects_ok then
        (.ok (), [.dxLockObjects gl_dx_interop_object])
      else
        (.fatal, [.dxLockObjects gl_dx_interop_object])
    else
      (.fatal, [])

/-- `Device::unlock_surface` (source lines 414-431): early return for widget
surfaces, before the interop-table `expect`. -/
def unlock_surface (env : Env) (device : Device) (surface : Surface) :
    FnResult Unit × List ExternCall :=
  match surface.win32_objects with
  | .Widget _ => (.ok (), [])
  | .Texture _ _ gl_dx_interop_object _ _ _ =>
    if env.dx_interop_available then
      if env.unlock_objects_ok then
        (.ok (), [.dxUnlockObjects gl_dx_interop_object])
      else
        (.fatal, [.dxUnlockObjects gl_dx_interop_object])
    else
      (.fatal, [])

/-- `Device::lock_surface_data` (source lines 433-437): always unimplemented. -/
def lock_surface_data (device : Device) (surface : Surface) : FnResult Unit :=
  .err .Unimplemented

/-- `Device::present_surface_without_context` (source lines 444-458): widget
surfaces swap via GetDC/SwapBuffers/ReleaseDC (no make-current in the trace);
texture surfaces get `NoWidgetAttached`. -/
def present_surface_without_context (env : Env) (device : Device)
    (surface : Surface) : FnResult Unit × List ExternCall :=
  match surface.win32_objects with
  | .Widget window_handle =>
    if env.swap_buffers_ok then
      (.ok (), [.getDC window_handle, .swapBuffers, .releaseDC window_handle])
    else
      (.fatal, [.getDC window_handle, .swapBuffers])
  | .Texture _ _ _ _ _ _ => (.err .NoWidgetAttached, [])

/-- `Surface::id` (source lines 467-474): the d3d11 texture pointer for
texture surfaces, the window handle for widget surfaces, as a `usize`. -/
def Surface.id (s : Surface) : SurfaceID :=
  match s.win32_objects with
  | .Texture d3d11_texture _ _ _ _ _ => ⟨d3d11_texture⟩
  | .Widget window_handle => ⟨window_handle⟩

/-- `impl Drop for Surface` (source lines 85-91): dropping a surface panics
exactly when it is not destroyed and the thread is not already panicking. -/
def surface_drop_panics (surface : Surface) (thread_panicking : Bool) : Bool :=
  !surface.destroyed && !thread_panicking

/-- Modelled from the spec: §4.1 says the widget path queries "the native
window's current client rectangle" for the size.  The Windows client-rectangle
query is `GetClientRect`, which this backend never calls; this definition
states the spec's wording so it can be compared with the source's use of
`GetWindowRect`. -/
def spec_widget_surface_size (env : Env) : Option Size2D :=
  match env.get_client_rect with
  | none => none
  | some r => some ⟨r.right - r.left, r.bottom - r.top⟩

/-! Concrete fixtures used by the witnesses and counterexamples. -/

/-- An environment in which every native call succeeds. -/
def env_ok : Env :=
  { dx_interop_available := true
    make_current_result := none
    create_texture_2d_succeeded := true
    create_texture_2d_handle := 10
    query_interface_succeeded := true
    query_interface_handle := 11
    get_shared_handle_succeeded := true
    shared_handle := 12
    set_resource_share_handle_ok := true
    gen_textures_name := 3
    register_object_handle := 13
    gen_framebuffers_name := 4
    renderbuffers_token := 5
    get_window_rect := some ⟨0, 0, 100, 200⟩
    get_client_rect := some ⟨0, 0, 100, 200⟩
    open_shared_resource_succeeded := true
    open_shared_resource_handle := 14
    lock_objects_ok := true
    unlock_objects_ok := true
    unregister_object_ok := true
    swap_buffers_ok := true }

/-- The all-succeeding environment, except the DX interop extension set was
never negotiated. -/
def env_no_interop : Env := { env_ok with dx_interop_available := false }

/-- A concrete device. -/
def device0 : Device := ⟨100, 200⟩

/-- A context with id 1. -/
def ctx1 : Context := ⟨⟨1⟩⟩

/-- A context with id 2. -/
def ctx2 : Context := ⟨⟨2⟩⟩

/-- A concrete native widget. -/
def widget0 : NativeWidget := ⟨77⟩

/-- A concrete renderbuffers token. -/
def rbs0 : Renderbuffers := ⟨5⟩

/-- A live texture-backed surface owned by context 1. -/
def tex_surface0 : Surface :=
  { size := ⟨64, 64⟩
    context_id := ⟨1⟩
    win32_objects := .Texture 10 12 13 3 4 rbs0
    destroyed := false }

/-- A live widget-backed surface owned by context 1. -/
def widget_surface0 : Surface :=
  { size := ⟨100, 200⟩
    context_id := ⟨1⟩
    win32_objects := .Widget 77
    destroyed := false }

/-- The surface texture produced by `create_surface_texture env_ok device0 ctx2
tex_surface0`. -/
def st0 : SurfaceTexture := ⟨tex_surface0, 14, 13, 3⟩

/-- The call trace of that successful `create_surface_texture`. -/
def trace_cst0 : List ExternCall :=
  [.makeContextCurrent ⟨2⟩, .openSharedResource 12, .dxSetResourceShareHandle 12,
   .genTextures, .dxRegisterObject WGL_ACCESS_READ_ONLY_NV, .dxLockObjects 13,
   .bindTexture 3, .texParameteri TEXTURE_MAG_FILTER,
   .texParameteri TEXTURE_MIN_FILTER, .texParameteri TEXTURE_WRAP_S,
   .texParameteri TEXTURE_WRAP_T]

/-- The call trace of the matching successful `destroy_surface_texture`. -/
def trace_dst0 : List ExternCall :=
  [.makeContextCurrent ⟨1⟩, .dxUnlockObjects 13, .dxUnregisterObject 13,
   .deleteTextures 3]

/-- Helper: a successful `create_surface_texture` moves the consumed surface,
unchanged, into the returned `SurfaceTexture`. -/
theorem create_surface_texture_ok_surface (env : Env) (device : Device)
    (context : Context) (surface : Surface) (st : SurfaceTexture)
    (tr : List ExternCall)
    (h : create_surface_texture env device context surface = (.ok st, tr)) :
    st.surface = surface := by
  unfold create_surface_texture at h
  repeat' split at h
  all_goals (try simp_all)
  all_goals (obtain ⟨h1, h2⟩ := h; rw [← h1])

/-- Helper: a successful `destroy_surface_texture` returns exactly the surface
wrapped by the consumed `SurfaceTexture`. -/
theorem destroy_surface_texture_ok_surface (env : Env) (device : Device)
    (context : Context) (st : SurfaceTexture) (s : Surface)
    (tr : List ExternCall)
    (h : destroy_surface_texture env device context st = (.ok s, tr)) :
    s = st.surface := by
  unfold destroy_surface_texture at h
  repeat' split at h
  all_goals simp_all

/-- C1 (amended): provided the DX interop capability was negotiated at
device-init time, `destroy_surface` called with a context whose id differs
from the surface's `context_id` marks the surface destroyed, returns
`IncompatibleSurface`, performs no external teardown work (empty call trace),
and does not panic — for texture- and widget-backed surfaces alike. -/
theorem c1_destroy_incompatible (env : Env) (device : Device) (context : Context)
    (surface : Surface)
    (hdx : env.dx_interop_available = true)
    (hid : context.id ≠ surface.context_id) :
    destroy_surface env device context surface =
      (.err .IncompatibleSurface { surface with destroyed := true }, []) := by
  unfold destroy_surface
  rw [hdx]
  simp only [if_true]
  rw [if_pos hid]

/-- Witness for C1 at a concrete mismatched context and texture surface. -/
theorem c1_destroy_incompatible_witness :
    env_ok.dx_interop_available = true ∧ ctx2.id ≠ tex_surface0.context_id ∧
    destroy_surface env_ok device0 ctx2 tex_surface0 =
      (.err .IncompatibleSurface { tex_surface0 with destroyed := true }, []) :=
  ⟨rfl, by decide,
   c1_destroy_incompatible env_ok device0 ctx2 tex_surface0 rfl (by decide)⟩

/-- C1 counterexample: with the interop function table absent (an environment
in which a widget-backed surface can still be created), `destroy_surface` on a
widget surface with a mismatched context panics at the `expect` (a `fatal`
outcome, surface not marked destroyed) instead of returning
`IncompatibleSurface`. -/
theorem c1_counterexample :
    ctx2.id ≠ widget_surface0.context_id ∧
    destroy_surface env_no_interop device0 ctx2 widget_surface0 =
      (.fatal widget_surface0, []) :=
  ⟨by decide, rfl⟩

/-- C2: a successful `create_surface_texture` followed by a successful
`destroy_surface_texture` returns a surface with the same `size`, `id`, and
`context_id` as the consumed one, with the `destroyed` flag still false. -/
theorem c2_round_trip (env1 env2 : Env) (device1 device2 : Device)
    (context1 context2 : Context) (surface : Surface) (st : SurfaceTexture)
    (s2 : Surface) (tr1 tr2 : List ExternCall)
    (hdes : surface.destroyed = false)
    (hc : create_surface_texture env1 device1 context1 surface = (.ok st, tr1))
    (hd : destroy_surface_texture env2 device2 context2 st = (.ok s2, tr2)) :
    s2.size = surface.size ∧ s2.id = surface.id ∧
      s2.context_id = surface.context_id ∧ s2.destroyed = false := by
  have h1 := create_surface_texture_ok_surface env1 device1 context1 surface st tr1 hc
  have h2 := destroy_surface_texture_ok_surface env2 device2 context2 st s2 tr2 hd
  subst h2
  rw [h1]
  exact ⟨rfl, rfl, rfl, hdes⟩

/-- Witness for C2: a concrete successful round trip through a second
context. -/
theorem c2_round_trip_witness :
    tex_surface0.destroyed = false ∧
    create_surface_texture env_ok device0 ctx2 tex_surface0 = (.ok st0, trace_cst0) ∧
    destroy_surface_texture env_ok device0 ctx1 st0 = (.ok tex_surface0, trace_dst0) ∧
    (tex_surface0.size = tex_surface0.size ∧
      tex_surface0.id = tex_surface0.id ∧
      tex_surface0.context_id = tex_surface0.context_id ∧
      tex_surface0.destroyed = false) :=
  ⟨rfl, by decide, by decide,
   c2_round_trip env_ok env_ok device0 device0 ctx2 ctx1 tex_surface0 st0
     tex_surface0 trace_cst0 trace_dst0 rfl (by decide) (by decide)⟩

/-- C3: `create_surface_texture` on a widget-backed surface returns the
`WidgetAttached` error with the consumed surface marked destroyed; the surface
is not returned to the caller, and no external call is made. -/
theorem c3_widget_attached (env : Env) (device : Device) (context : Context)
    (surface : Surface) (wh : Handle)
    (hw : surface.win32_objects = .Widget wh) :
    create_surface_texture env device context surface =
      (.err .WidgetAttached { surface with destroyed := true }, []) := by
  unfold create_surface_texture
  rw [hw]

/-- Witness for C3 at a concrete widget surface, in an environment without the
interop extension (the widget check precedes the interop-table access). -/
theorem c3_widget_attached_witness :
    widget_surface0.win32_objects = Win32Objects.Widget 77 ∧
    create_surface_texture env_no_interop device0 ctx1 widget_surface0 =
      (.err .WidgetAttached { widget_surface0 with destroyed := true }, []) :=
  ⟨rfl, c3_widget_attached env_no_interop device0 ctx1 widget_surface0 77 rfl⟩

/-- C4: when the DX interop capability table was not negotiated,
`create_surface` with a `Generic` surface type returns
`RequiredExtensionUnavailable` with an empty call trace — no native allocation
or GL object creation is attempted, leaving the device state untouched. -/
theorem c4_extension_unavailable (env : Env) (device : Device) (context : Context)
    (access : SurfaceAccess) (size : Size2D)
    (hdx : env.dx_interop_available = false) :
    create_surface env device context access (.Generic size) =
      (.err .RequiredExtensionUnavailable, []) := by
  simp [create_surface, create_generic_surface, hdx]

/-- Witness for C4 at a concrete size. -/
theorem c4_extension_unavailable_witness :
    env_no_interop.dx_interop_available = false ∧
    create_surface env_no_interop device0 ctx1 SurfaceAccess.GPUOnly
        (.Generic ⟨64, 64⟩) =
      (.err .RequiredExtensionUnavailable, []) :=
  ⟨rfl, c4_extension_unavailable env_no_interop device0 ctx1
    SurfaceAccess.GPUOnly ⟨64, 64⟩ rfl⟩

/-- C5: if opening the texture surface's share handle in the target device
fails (error result or null resource), `create_surface_texture` returns
`SurfaceImportFailed` and marks the consumed surface destroyed; the surface is
not returned to the caller. -/
theorem c5_import_failed (env : Env) (device : Device) (context : Context)
    (surface : Surface) (d3d dxgi io : Handle) (gt gfb : Nat)
    (rbs : Renderbuffers)
    (hw : surface.win32_objects = .Texture d3d dxgi io gt gfb rbs)
    (hdx : env.dx_interop_available = true)
    (hmc : env.make_current_result = none)
    (hopen : ¬env.open_shared_resource_succeeded ∨
      env.open_shared_resource_handle = 0) :
    create_surface_texture env device context surface =
      (.err (.SurfaceImportFailed .Failed) { surface with destroyed := true },
       [.makeContextCurrent context.id, .openSharedResource dxgi]) := by
  unfold create_surface_texture
  rw [hw]
  rw [hdx]
  simp only [if_true, hmc]
  rw [if_pos hopen]

/-- A concrete environment in which opening the shared resource fails. -/
def env_import_fail : Env := { env_ok with open_shared_resource_succeeded := false }

/-- Witness for C5 at a concrete texture surface and failing open. -/
theorem c5_import_failed_witness :
    tex_surface0.win32_objects = Win32Objects.Texture 10 12 13 3 4 rbs0 ∧
    env_import_fail.dx_interop_available = true ∧
    env_import_fail.make_current_result = none ∧
    (¬env_import_fail.open_shared_resource_succeeded ∨
      env_import_fail.open_shared_resource_handle = 0) ∧
    create_surface_texture env_import_fail device0 ctx2 tex_surface0 =
      (.err (.SurfaceImportFailed .Failed) { tex_surface0 with destroyed := true },
       [.makeContextCurrent ctx2.id, .openSharedResource 12]) :=
  ⟨rfl, rfl, rfl, Or.inl (by decide),
   c5_import_failed env_import_fail device0 ctx2 tex_surface0 10 12 13 3 4 rbs0
     rfl rfl rfl (Or.inl (by decide))⟩

/-- C6 (amended): `create_surface` with a `Widget` surface type queries the
native window's current window rectangle (via `GetWindowRect`; not the client
rectangle the spec names) and sets the surface size to that rectangle's width
and height, performs no interop registration (the only external call is the
rectangle query), ties `context_id` to the creating context, and returns
`InvalidNativeWidget` when the rectangle query fails. -/
theorem c6_widget_surface (env : Env) (device : Device) (context : Context)
    (access : SurfaceAccess) (w : NativeWidget) :
    (∀ r, env.get_window_rect = some r →
      create_surface env device context access (.Widget w) =
        (.ok { size := ⟨r.right - r.left, r.bottom - r.top⟩
               context_id := context.id
               win32_objects := .Widget w.window_handle
               destroyed := false },
         [.getWindowRect w.window_handle])) ∧
    (env.get_window_rect = none →
      create_surface env device context access (.Widget w) =
        (.err .InvalidNativeWidget, [.getWindowRect w.window_handle])) := by
  constructor
  · intro r hr
    simp [create_surface, create_widget_surface, hr]
  · intro hr
    simp [create_surface, create_widget_surface, hr]

/-- An environment in which the window rectangle query fails. -/
def env_no_rect : Env := { env_ok with get_window_rect := none }

/-- Witness for C6: both the successful query and the failing query at
concrete inputs. -/
theorem c6_widget_surface_witness :
    env_ok.get_window_rect = some ⟨0, 0, 100, 200⟩ ∧
    create_surface env_ok device0 ctx1 SurfaceAccess.GPUOnly (.Widget widget0) =
      (.ok { size := ⟨100, 200⟩, context_id := ⟨1⟩,
             win32_objects := .Widget 77, destroyed := false },
       [.getWindowRect 77]) ∧
    env_no_rect.get_window_rect = none ∧
    create_surface env_no_rect device0 ctx1 SurfaceAccess.GPUOnly (.Widget widget0) =
      (.err .InvalidNativeWidget, [.getWindowRect 77]) :=
  ⟨rfl,
   by simpa using
     (c6_widget_surface env_ok device0 ctx1 SurfaceAccess.GPUOnly widget0).1
       ⟨0, 0, 100, 200⟩ rfl,
   rfl,
   (c6_widget_surface env_no_rect device0 ctx1 SurfaceAccess.GPUOnly widget0).2 rfl⟩

/-- An environment whose window rectangle and client rectangle differ, as for
any window with a non-client frame. -/
def env_c6 : Env := { env_ok with get_client_rect := some ⟨0, 0, 10, 20⟩ }

/-- C6 counterexample: with a client rectangle of 10 by 20 but a window
rectangle of 100 by 200, the created widget surface's size is 100 by 200 — the
window rectangle's dimensions, not the client rectangle's dimensions that the
claim states. -/
theorem c6_counterexample :
    spec_widget_surface_size env_c6 = some ⟨10, 20⟩ ∧
    create_surface env_c6 device0 ctx1 SurfaceAccess.GPUOnly (.Widget widget0) =
      (.ok { size := ⟨100, 200⟩, context_id := ⟨1⟩,
             win32_objects := .Widget 77, destroyed := false },
       [.getWindowRect 77]) ∧
    (⟨100, 200⟩ : Size2D) ≠ (⟨10, 20⟩ : Size2D) := by
  refine ⟨rfl, by decide, by decide⟩

/-- C7: `present_surface_without_context` returns `NoWidgetAttached` for every
texture-backed surface; for a widget-backed surface (when the OS swap
succeeds) it performs GetDC/SwapBuffers/ReleaseDC and returns success, with no
make-context-current call in its trace. -/
theorem c7_present (env : Env) (device : Device) (surface : Surface) :
    (∀ d3d dxgi io gt gfb rbs,
      surface.win32_objects = .Texture d3d dxgi io gt gfb rbs →
      present_surface_without_context env device surface =
        (.err .NoWidgetAttached, [])) ∧
    (∀ wh, surface.win32_objects = .Widget wh → env.swap_buffers_ok = true →
      present_surface_without_context env device surface =
        (.ok (), [.getDC wh, .swapBuffers, .releaseDC wh])) := by
  constructor
  · intro d3d dxgi io gt gfb rbs hw
    simp [present_surface_without_context, hw]
  · intro wh hw hs
    simp [present_surface_without_context, hw, hs]

/-- Witness for C7 at a concrete texture surface and a concrete widget
surface. -/
theorem c7_present_witness :
    present_surface_without_context env_ok device0 tex_surface0 =
      (.err .NoWidgetAttached, []) ∧
    present_surface_without_context env_ok device0 widget_surface0 =
      (.ok (), [.getDC 77, .swapBuffers, .releaseDC 77]) :=
  ⟨(c7_present env_ok device0 tex_surface0).1 10 12 13 3 4 rbs0 rfl,
   (c7_present env_ok device0 widget_surface0).2 77 rfl rfl⟩

/-- C8: dropping a surface whose `destroyed` flag is false, on a thread that is
not already unwinding, panics; dropping a surface whose `destroyed` flag is
true never panics. -/
theorem c8_drop_guard (surface : Surface) (thread_panicking : Bool) :
    (surface.destroyed = false → thread_panicking = false →
      surface_drop_panics surface thread_panicking = true) ∧
    (surface.destroyed = true →
      surface_drop_panics surface thread_panicking = false) := by
  constructor
  · intro h1 h2
    simp [surface_drop_panics, h1, h2]
  · intro h1
    simp [surface_drop_panics, h1]

/-- Witness for C8: a live surface dropped on a healthy thread panics; a
destroyed surface does not. -/
theorem c8_drop_guard_witness :
    surface_drop_panics tex_surface0 false = true ∧
    surface_drop_panics { tex_surface0 with destroyed := true } false = false :=
  ⟨(c8_drop_guard tex_surface0 false).1 rfl rfl,
   (c8_drop_guard { tex_surface0 with destroyed := true } false).2 rfl⟩

/-- C9: `lock_surface` and `unlock_surface` on a widget-backed surface return
immediately with no external call, no panic, and no surface or device state
change (both take the surface immutably in the model, mirroring the source's
shared borrow). -/
theorem c9_lock_unlock_widget (env : Env) (device : Device) (surface : Surface)
    (wh : Handle) (hw : surface.win32_objects = .Widget wh) :
    lock_surface env device surface = (.ok (), []) ∧
    unlock_surface env device surface = (.ok (), []) := by
  constructor
  · unfold lock_surface
    rw [hw]
  · unfold unlock_surface
    rw [hw]

/-- Witness for C9 at a concrete widget surface, even without the interop
extension (the widget early-return precedes the interop-table access). -/
theorem c9_lock_unlock_widget_witness :
    widget_surface0.win32_objects = Win32Objects.Widget 77 ∧
    lock_surface env_no_interop device0 widget_surface0 = (.ok (), []) ∧
    unlock_surface env_no_interop device0 widget_surface0 = (.ok (), []) :=
  ⟨rfl,
   (c9_lock_unlock_widget env_no_interop device0 widget_surface0 77 rfl).1,
   (c9_lock_unlock_widget env_no_interop device0 widget_surface0 77 rfl).2⟩

/-- C10: `create_surface` never inspects its `SurfaceAccess` hint — any two
hints give definitionally the same outcome for every environment, device,
context, and surface type. -/
theorem c10_access_hint_ignored (env : Env) (device : Device) (context : Context)
    (access1 access2 : SurfaceAccess) (surface_type : SurfaceType) :
    create_surface env device context access1 surface_type =
      create_surface env device context access2 surface_type := rfl

end WGLSurface
